import Mathlib

/-
Verification of the yap_rust service core against its specification.

The development shallowly embeds the three Rust source files:
  src/poke_api/client.rs          (species-metadata client)
  src/funtranslations_api/client.rs (translation client)
  src/main.rs                     (handlers and boundary error mapping)

JSON documents are modelled by the inductive `Json`; serde_json's
infallible `Value` indexing (which yields `Null` on a missing key or a
non-object receiver) is `Json.index`.  Rust `Option`-returning accessors
`as_str`, `as_bool`, `as_array`, `as_u64` are modelled directly.  An
outbound HTTP exchange is abstracted as an `UpstreamEvent`: either a
transport-level failure (carrying the optional HTTP status that
`reqwest::Error::status()` reports) or a delivered response with a status
code and a body; the body is `none` when it is not parseable JSON, which
makes `serde_json::from_str` fail.  `Option::unwrap` on `None` (a Rust
panic) is modelled as an explicit `panicked` outcome, distinct from the
client's error values.
-/

set_option autoImplicit false

/-- JSON values as parsed by serde_json.  Numbers are restricted to the
integers, which covers every numeric field the program inspects. -/
inductive Json where
  | null
  | bool (b : Bool)
  | num (n : Int)
  | str (s : String)
  | arr (elems : List Json)
  | obj (fields : List (String × Json))

/-- First value bound to `key` in an object's field list (serde_json maps
have unique keys, so first-match lookup is exact). -/
def lookupField : List (String × Json) → String → Json
  | [], _ => Json.null
  | (k, v) :: rest, key => if k = key then v else lookupField rest key

/-- serde_json's `value[key]` for shared references: returns `Null` when
the receiver is not an object or the key is absent. -/
def Json.index (j : Json) (key : String) : Json :=
  match j with
  | Json.obj fields => lookupField fields key
  | _ => Json.null

/-- Value::as_str. -/
def Json.as_str : Json → Option String
  | Json.str s => some s
  | _ => none

/-- Value::as_bool. -/
def Json.as_bool : Json → Option Bool
  | Json.bool b => some b
  | _ => none

/-- Value::as_array. -/
def Json.as_array : Json → Option (List Json)
  | Json.arr elems => some elems
  | _ => none

/-- Value::as_u64: defined exactly on integers representable in 64 bits
without sign. -/
def Json.as_u64 : Json → Option Nat
  | Json.num n => if 0 ≤ n ∧ n < 2 ^ 64 then some n.toNat else none
  | _ => none

/-- Rust `str::replace('\n', " ")`: the pattern is a single character and
the replacement a single-character string, so the call is exactly a
character-wise map sending a line feed to a space. -/
def foldNewlines (s : String) : String :=
  String.mk (s.data.map (fun c => if c = '\n' then ' ' else c))

/-- PokemonInfo from src/poke_api/client.rs. -/
structure PokemonInfo where
  name : String
  description : String
  habitat : String
  is_legendary : Bool
deriving DecidableEq

/-- PokeApiClientError from src/poke_api/client.rs. -/
inductive PokeApiClientError where
  | NotFound
  | InternalError
  | BadRequest (message : String)
deriving DecidableEq

/-- From reqwest::Error for PokeApiClientError: the error (and in
particular any HTTP status it carries) is ignored; every transport
failure becomes InternalError. -/
def PokeApiClientError.fromReqwestError : Option Nat → PokeApiClientError :=
  fun _ => PokeApiClientError.InternalError

/-- Outcome of one run of the species-info builder: a parsed record, a
client error value, or a Rust panic (Option::unwrap on None). -/
inductive BuildResult where
  | ok (info : PokemonInfo)
  | error (e : PokeApiClientError)
  | panicked
deriving DecidableEq

/-- Outcome of the iterator search
`entries.into_iter().find(|d| d["language"]["name"].as_str().unwrap().eq("en"))`:
the closure unwraps `as_str`, so scanning an entry whose `language.name`
is not a string panics; reaching the end without a match leaves `find`
returning None (which the caller then unwraps, panicking). -/
inductive FindEnResult where
  | panicked
  | notFound
  | found (entry : Json)

/-- Scan of `flavor_text_entries` performed inside build_pokemon_info. -/
def findFirstEn : List Json → FindEnResult
  | [] => FindEnResult.notFound
  | d :: rest =>
    match ((d.index "language").index "name").as_str with
    | none => FindEnResult.panicked
    | some lang =>
      if lang = "en" then FindEnResult.found d else findFirstEn rest

/-- build_pokemon_info from src/poke_api/client.rs, applied to an already
parsed body.  `flavor_text_entries` must be an array (`as_array.unwrap`)
and the en-entry search must succeed (`find(..).unwrap`); both unwraps
panic otherwise.  The four field reads are Options combined with
`.and(..).is_some()`: if any is None the function returns InternalError,
otherwise it assembles the record, folding newlines in the description. -/
def build_pokemon_info (parsed : Json) : BuildResult :=
  match (parsed.index "flavor_text_entries").as_array with
  | none => BuildResult.panicked
  | some entries =>
    match findFirstEn entries with
    | FindEnResult.panicked => BuildResult.panicked
    | FindEnResult.notFound => BuildResult.panicked
    | FindEnResult.found entry =>
      match (parsed.index "name").as_str, (entry.index "flavor_text").as_str,
          ((parsed.index "habitat").index "name").as_str,
          (parsed.index "is_legendary").as_bool with
      | some n, some d, some hab, some leg =>
        BuildResult.ok (PokemonInfo.mk n (foldNewlines d) hab leg)
      | _, _, _, _ => BuildResult.error PokeApiClientError.InternalError

/-- One outbound HTTP exchange as the client observes it: a reqwest-level
failure carrying the status `reqwest::Error::status()` reports (none for
connection errors and timeouts), or a delivered response whose body is
`some` parsed JSON, or `none` when the body is not valid JSON. -/
inductive UpstreamEvent where
  | transportError (status : Option Nat)
  | httpResponse (status : Nat) (body : Option Json)

/-- get_pokemon_info from src/poke_api/client.rs as a function of the
upstream exchange: transport failures go through
From reqwest::Error (InternalError); status 200 parses the body
(serde failure maps to InternalError via From serde_json::Error) and
runs build_pokemon_info; 404 is NotFound; anything else InternalError. -/
def get_pokemon_info (ev : UpstreamEvent) : BuildResult :=
  match ev with
  | UpstreamEvent.transportError st =>
    BuildResult.error (PokeApiClientError.fromReqwestError st)
  | UpstreamEvent.httpResponse 200 (some j) => build_pokemon_info j
  | UpstreamEvent.httpResponse 200 none =>
    BuildResult.error PokeApiClientError.InternalError
  | UpstreamEvent.httpResponse 404 _ => BuildResult.error PokeApiClientError.NotFound
  | UpstreamEvent.httpResponse _ _ => BuildResult.error PokeApiClientError.InternalError

/-- Translation from src/funtranslations_api/client.rs. -/
structure Translation where
  dialect : String
  original : String
  translated : String
deriving DecidableEq

/-- FunTranslationsApiClientError from src/funtranslations_api/client.rs. -/
inductive FunTranslationsApiClientError where
  | InternalError
  | NotFound
  | BadRequest (message : String)
deriving DecidableEq

/-- From reqwest::Error for FunTranslationsApiClientError: a transport
error whose `status()` is Some(404) becomes NotFound; every other
transport error becomes InternalError. -/
def FunTranslationsApiClientError.fromReqwestError
    (status : Option Nat) : FunTranslationsApiClientError :=
  if status = some 404 then FunTranslationsApiClientError.NotFound
  else FunTranslationsApiClientError.InternalError

/-- build_translation from src/funtranslations_api/client.rs, applied to
an already parsed body: requires `success.total` to read as a u64 that is
positive, then requires the three string fields of `contents`; any
failure yields InternalError.  On success the record is assembled with
dialect = contents.translation, original = contents.text,
translated = contents.translated. -/
def build_translation (parsed : Json) :
    Except FunTranslationsApiClientError Translation :=
  match ((parsed.index "success").index "total").as_u64 with
  | some total =>
    if total > 0 then
      match ((parsed.index "contents").index "translated").as_str,
          ((parsed.index "contents").index "text").as_str,
          ((parsed.index "contents").index "translation").as_str with
      | some translated, some text, some translation =>
        Except.ok (Translation.mk translation text translated)
      | _, _, _ => Except.error FunTranslationsApiClientError.InternalError
    else Except.error FunTranslationsApiClientError.InternalError
  | none => Except.error FunTranslationsApiClientError.InternalError

/-- translate from src/funtranslations_api/client.rs as a function of the
upstream exchange: transport failures go through
From reqwest::Error (NotFound on a 404-carrying error, InternalError
otherwise); status 200 parses the body (serde failure maps to
InternalError) and runs build_translation; 404 is NotFound; anything
else InternalError. -/
def FunTranslationsApiClient.translate (ev : UpstreamEvent) : Except FunTranslationsApiClientError Translation :=
  match ev with
  | UpstreamEvent.transportError st =>
    Except.error (FunTranslationsApiClientError.fromReqwestError st)
  | UpstreamEvent.httpResponse 200 (some j) => build_translation j
  | UpstreamEvent.httpResponse 200 none =>
    Except.error FunTranslationsApiClientError.InternalError
  | UpstreamEvent.httpResponse 404 _ =>
    Except.error FunTranslationsApiClientError.NotFound
  | UpstreamEvent.httpResponse _ _ =>
    Except.error FunTranslationsApiClientError.InternalError

/-- PokeError from src/main.rs: the boundary error with its HTTP status
code, machine-readable code and human message. -/
structure PokeError where
  status_code : Nat
  code : String
  message : String
deriving DecidableEq

/-- From PokeApiClientError for PokeError (src/main.rs lines 49-69). -/
def PokeError.fromPokeApiClientError : PokeApiClientError → PokeError
  | PokeApiClientError.BadRequest message =>
    PokeError.mk 400 "PE_BAD_REQUEST" message
  | PokeApiClientError.InternalError =>
    PokeError.mk 500 "PE_INTERNAL" "internal error"
  | PokeApiClientError.NotFound =>
    PokeError.mk 404 "PE_NOT_FOUND" "pokemon not found"

/-- From FunTranslationsApiClientError for PokeError (src/main.rs
lines 71-91). -/
def PokeError.fromFunTranslationsApiClientError :
    FunTranslationsApiClientError → PokeError
  | FunTranslationsApiClientError.BadRequest message =>
    PokeError.mk 400 "PE_BAD_REQUEST" message
  | FunTranslationsApiClientError.NotFound =>
    PokeError.mk 404 "PE_NOT_FOUND" "not found"
  | FunTranslationsApiClientError.InternalError =>
    PokeError.mk 500 "PE_INTERNAL" "internal error"

/-- Outcome of a request handler: a JSON 200 body, a mapped boundary
error, or a panic propagated from a client. -/
inductive HandlerResult where
  | ok (info : PokemonInfo)
  | error (e : PokeError)
  | panicked
deriving DecidableEq

/-- Dialect selection inside get_pokemon_info_translated
(src/main.rs lines 109-112): dialect starts as "shakespeare" and becomes
"yoda" when habitat is "cave" or the species is legendary. -/
def selectDialect (info : PokemonInfo) : String :=
  if info.habitat = "cave" ∨ info.is_legendary = true then "yoda" else "shakespeare"

/-- Assignment `pokemon_info.description = <d>` from src/main.rs. -/
def setDescription (info : PokemonInfo) (d : String) : PokemonInfo :=
  PokemonInfo.mk info.name d info.habitat info.is_legendary

/-- Handler of GET /pokemon/name (src/main.rs get_pokemon_info route):
runs the species fetch, maps a client error through
From PokeApiClientError, and serializes the record on success. -/
def getInfo (pokeEv : UpstreamEvent) : HandlerResult :=
  match get_pokemon_info pokeEv with
  | BuildResult.ok info => HandlerResult.ok info
  | BuildResult.error e => HandlerResult.error (PokeError.fromPokeApiClientError e)
  | BuildResult.panicked => HandlerResult.panicked

/-- Handler of GET /pokemon/translated/name
(src/main.rs get_pokemon_info_translated).  The translation upstream is
abstracted as `upstream dialect text`, the exchange observed when the
client is invoked with that dialect and text; the handler invokes it only
after a successful species fetch, and only at the selected dialect and
the fetched description.  On a successful translation the description is
overwritten with `translation.translated`. -/
def get_pokemon_info_translated (pokeEv : UpstreamEvent)
    (upstream : String → String → UpstreamEvent) : HandlerResult :=
  match get_pokemon_info pokeEv with
  | BuildResult.panicked => HandlerResult.panicked
  | BuildResult.error e => HandlerResult.error (PokeError.fromPokeApiClientError e)
  | BuildResult.ok info =>
    match FunTranslationsApiClient.translate (upstream (selectDialect info) info.description) with
    | Except.error e =>
      HandlerResult.error (PokeError.fromFunTranslationsApiClientError e)
    | Except.ok translation =>
      HandlerResult.ok (setDescription info translation.translated)

/-- Reqwest HTTP client as configured at construction: the only setting
the sources touch is the per-call timeout. -/
structure ModelHttpClient where
  timeout : Option Nat

/-- reqwest::Client::new() — the default client, which sets no timeout. -/
def reqwestClientNew : ModelHttpClient := ModelHttpClient.mk none

/-- reqwest::Client::builder().timeout(t).build().unwrap(). -/
def reqwestClientWithTimeout (t : Nat) : ModelHttpClient := ModelHttpClient.mk (some t)

/-- The HTTP client held by PokeApiClient::new (src/poke_api/client.rs
lines 19-24): built with Client::new(), hence without a timeout.  The
constructor takes only base_url; the Duration that src/main.rs passes at
the call site has no parameter to bind to. -/
def pokeApiClientHttp : ModelHttpClient := reqwestClientNew

/-- The HTTP client held by FunTranslationsApiClient::new
(src/funtranslations_api/client.rs lines 19-26): built with the given
timeout (seconds). -/
def funTranslationsApiClientHttp (timeoutSecs : Nat) : ModelHttpClient :=
  reqwestClientWithTimeout timeoutSecs

/-- Description selection as the specification words it: the first entry
of the list whose `language.name` is the string "en".  Used to compare
the source's panicking iterator search against the spec. -/
def firstEnSpec : List Json → Option Json
  | [] => none
  | d :: rest =>
    if ((d.index "language").index "name").as_str = some "en" then some d
    else firstEnSpec rest

/-- Concrete flavor-text entry in Italian, placed before the English one
to exercise the order-independence of the selection. -/
def sampleItEntry : Json :=
  Json.obj [("flavor_text", Json.str "Creato da uno scienziato."),
    ("language", Json.obj [("name", Json.str "it")])]

/-- Concrete English flavor-text entry whose text contains a newline. -/
def sampleEnEntry : Json :=
  Json.obj [("flavor_text", Json.str "It was created\nby a scientist."),
    ("language", Json.obj [("name", Json.str "en")])]

/-- Concrete fully well-formed species payload. -/
def sampleSpeciesJson : Json :=
  Json.obj [("name", Json.str "mewtwo"),
    ("flavor_text_entries", Json.arr [sampleItEntry, sampleEnEntry]),
    ("habitat", Json.obj [("name", Json.str "rare")]),
    ("is_legendary", Json.bool true)]

/-- Record that build_pokemon_info produces from sampleSpeciesJson. -/
def sampleInfo : PokemonInfo :=
  PokemonInfo.mk "mewtwo" "It was created by a scientist." "rare" true

/-- Species exchange delivering sampleSpeciesJson with status 200. -/
def sampleSpeciesEvent : UpstreamEvent :=
  UpstreamEvent.httpResponse 200 (some sampleSpeciesJson)

/-- Species exchange answered with status 404. -/
def notFoundSpeciesEvent : UpstreamEvent :=
  UpstreamEvent.httpResponse 404 none

/-- Concrete well-formed translation payload. -/
def sampleTranslationJson : Json :=
  Json.obj [("success", Json.obj [("total", Json.num 1)]),
    ("contents", Json.obj [
      ("translated", Json.str "Created by a scientist, it was."),
      ("text", Json.str "It was created by a scientist."),
      ("translation", Json.str "yoda")])]

/-- Translation upstream that always answers 200 with
sampleTranslationJson. -/
def sampleTranslationUpstream : String → String → UpstreamEvent :=
  fun _ _ => UpstreamEvent.httpResponse 200 (some sampleTranslationJson)

/-- Translation upstream that always answers with status 500. -/
def failingTranslationUpstream : String → String → UpstreamEvent :=
  fun _ _ => UpstreamEvent.httpResponse 500 none

/-- Record getTranslatedInfo produces from sampleSpeciesEvent and
sampleTranslationUpstream. -/
def sampleTranslatedInfo : PokemonInfo :=
  PokemonInfo.mk "mewtwo" "Created by a scientist, it was." "rare" true

/-- Translation payload whose `translated` text contains a raw newline. -/
def newlineTranslationJson : Json :=
  Json.obj [("success", Json.obj [("total", Json.num 1)]),
    ("contents", Json.obj [
      ("translated", Json.str "Created by a scientist,\nit was."),
      ("text", Json.str "It was created by a scientist."),
      ("translation", Json.str "yoda")])]

/-- Translation upstream that always answers 200 with
newlineTranslationJson. -/
def newlineTranslationUpstream : String → String → UpstreamEvent :=
  fun _ _ => UpstreamEvent.httpResponse 200 (some newlineTranslationJson)

/-- Record getTranslatedInfo produces from sampleSpeciesEvent and
newlineTranslationUpstream: its description carries the upstream newline
through to the response. -/
def newlineOutInfo : PokemonInfo :=
  PokemonInfo.mk "mewtwo" "Created by a scientist,\nit was." "rare" true

/-- The character-wise newline folding leaves no line feed behind. -/
theorem foldNewlines_no_newline (s : String) : '\n' ∉ (foldNewlines s).data := by
  intro hmem
  have hdata : (foldNewlines s).data = s.data.map (fun c => if c = '\n' then ' ' else c) := rfl
  rw [hdata, List.mem_map] at hmem
  obtain ⟨c, _, hc⟩ := hmem
  by_cases h : c = '\n' <;> simp [h] at hc

/-- When the source's panicking scan finds an entry, that entry is the
first English-tagged one in the sense of the specification. -/
theorem findFirstEn_found_firstEnSpec (entries : List Json) (entry : Json)
    (h : findFirstEn entries = FindEnResult.found entry) :
    firstEnSpec entries = some entry := by
  induction entries with
  | nil => simp [findFirstEn] at h
  | cons d rest ih =>
    unfold findFirstEn at h
    unfold firstEnSpec
    cases hl : ((d.index "language").index "name").as_str with
    | none => rw [hl] at h; cases h
    | some lang =>
      rw [hl] at h
      dsimp only at h
      by_cases he : lang = "en"
      · rw [if_pos he] at h
        cases h
        rw [if_pos (by rw [he])]
      · rw [if_neg he] at h
        rw [if_neg (by simp [he])]
        exact ih h

/-- Inversion of a successful build_pokemon_info run: the payload's
`flavor_text_entries` is an array, the scan found an entry, that entry
has a string `flavor_text`, and the record's description is its folded
text. -/
theorem build_pokemon_info_ok_inv (j : Json) (info : PokemonInfo)
    (h : build_pokemon_info j = BuildResult.ok info) :
    ∃ entries entry d,
      (j.index "flavor_text_entries").as_array = some entries ∧
      findFirstEn entries = FindEnResult.found entry ∧
      (entry.index "flavor_text").as_str = some d ∧
      info.description = foldNewlines d := by
  unfold build_pokemon_info at h
  split at h
  · cases h
  · rename_i entries harr
    split at h
    · cases h
    · cases h
    · rename_i entry hfind
      split at h
      · rename_i n d hab leg hn hd hhab hleg
        cases h
        exact ⟨entries, entry, d, harr, hfind, hd, rfl⟩
      · cases h

/-- Inversion of a successful fetch: the exchange was a 200 response
with a parseable body on which build_pokemon_info succeeded. -/
theorem get_pokemon_info_ok_inv (ev : UpstreamEvent) (info : PokemonInfo)
    (h : get_pokemon_info ev = BuildResult.ok info) :
    ∃ j, ev = UpstreamEvent.httpResponse 200 (some j) ∧
      build_pokemon_info j = BuildResult.ok info := by
  unfold get_pokemon_info at h
  split at h
  · cases h
  · rename_i j
    exact ⟨j, rfl, h⟩
  · cases h
  · cases h
  · cases h

/-- Claim C1 (code evidence): on the species payload that is the empty
JSON object — all four required pieces missing — build_pokemon_info, and
hence fetch on a 200 response carrying that body, panics on an
Option::unwrap of `as_array` instead of returning the InternalError
value the claim requires. -/
theorem C1_missing_fields_panic_not_internal_error :
    build_pokemon_info (Json.obj []) = BuildResult.panicked
    ∧ get_pokemon_info (UpstreamEvent.httpResponse 200 (some (Json.obj [])))
      = BuildResult.panicked
    ∧ BuildResult.panicked ≠ BuildResult.error PokeApiClientError.InternalError :=
  ⟨rfl, rfl, by decide⟩

/-- Claim C2: for every fetched species info, the dialect passed to the
translation upstream is a pure function of that info — the handler's
outcome depends on the translation upstream only through its answer at
the selected dialect and the fetched description — and that dialect is
"yoda" exactly when habitat is "cave" or the species is legendary, and
"shakespeare" in every other case. -/
theorem C2_dialect_selection (ev : UpstreamEvent)
    (o₁ o₂ : String → String → UpstreamEvent) (info : PokemonInfo)
    (hf : get_pokemon_info ev = BuildResult.ok info)
    (ho : o₁ (selectDialect info) info.description
      = o₂ (selectDialect info) info.description) :
    get_pokemon_info_translated ev o₁ = get_pokemon_info_translated ev o₂
    ∧ (selectDialect info = "yoda"
      ↔ (info.habitat = "cave" ∨ info.is_legendary = true))
    ∧ (¬ (info.habitat = "cave" ∨ info.is_legendary = true) →
      selectDialect info = "shakespeare") := by
  refine ⟨?_, ?_, ?_⟩
  · unfold get_pokemon_info_translated
    rw [hf]
    dsimp only
    rw [ho]
  · unfold selectDialect
    by_cases hc : info.habitat = "cave" ∨ info.is_legendary = true
    · rw [if_pos hc]
      simp [hc]
    · rw [if_neg hc]
      simp [hc]
  · intro hc
    unfold selectDialect
    rw [if_neg hc]

/-- Claim C2 witness: instantiated at the concrete mewtwo payload (whose
habitat is "rare" and which is legendary) and a concrete upstream. -/
theorem C2_dialect_selection_witness :
    get_pokemon_info_translated sampleSpeciesEvent sampleTranslationUpstream
      = get_pokemon_info_translated sampleSpeciesEvent sampleTranslationUpstream
    ∧ (selectDialect sampleInfo = "yoda"
      ↔ (sampleInfo.habitat = "cave" ∨ sampleInfo.is_legendary = true))
    ∧ (¬ (sampleInfo.habitat = "cave" ∨ sampleInfo.is_legendary = true) →
      selectDialect sampleInfo = "shakespeare") :=
  C2_dialect_selection sampleSpeciesEvent sampleTranslationUpstream
    sampleTranslationUpstream sampleInfo rfl rfl

/-- Claim C3: whenever the species payload has an English-tagged entry
(in the specification's sense: the first element of the array whose
`language.name` is "en") and the fetch succeeds, the returned description
is exactly that entry's `flavor_text` with every newline replaced by a
space — entries in other languages before or after it are irrelevant. -/
theorem C3_first_en_entry_selected (j : Json) (entries : List Json)
    (entry : Json) (info : PokemonInfo)
    (harr : (j.index "flavor_text_entries").as_array = some entries)
    (hfirst : firstEnSpec entries = some entry)
    (hok : build_pokemon_info j = BuildResult.ok info) :
    ∃ s, (entry.index "flavor_text").as_str = some s
      ∧ info.description = foldNewlines s := by
  obtain ⟨entries', entry', d, harr', hfind', hd', hdesc'⟩ :=
    build_pokemon_info_ok_inv j info hok
  rw [harr] at harr'
  cases harr'
  have hspec := findFirstEn_found_firstEnSpec entries entry' hfind'
  rw [hfirst] at hspec
  cases hspec
  exact ⟨d, hd', hdesc'⟩

/-- Claim C3 witness: the concrete payload puts an Italian entry before
the English one; the description is the English text with its newline
folded to a space. -/
theorem C3_first_en_entry_selected_witness :
    ∃ s, (sampleEnEntry.index "flavor_text").as_str = some s
      ∧ sampleInfo.description = foldNewlines s :=
  C3_first_en_entry_selected sampleSpeciesJson [sampleItEntry, sampleEnEntry]
    sampleEnEntry sampleInfo rfl rfl rfl

/-- Claim C4 counterexample: the claim fails on the translated path.
With a well-formed species payload and a translation upstream whose
`translated` text contains a newline, getTranslatedInfo succeeds and its
description contains a raw newline, because src/main.rs assigns
`translation.translated` to the description without re-folding. -/
theorem C4_translated_newline_counterexample :
    get_pokemon_info_translated sampleSpeciesEvent newlineTranslationUpstream
      = HandlerResult.ok newlineOutInfo
    ∧ '\n' ∈ newlineOutInfo.description.data :=
  ⟨rfl, by decide⟩

/-- Claim C4 as amended: the newline-folding invariant holds for the
description the species fetch produces — hence for every successful
getInfo response and for the text handed to the translator — while the
description of a translated response is the upstream's `translated` text
verbatim. -/
theorem C4_no_newline_in_fetched_description :
    (∀ ev info, getInfo ev = HandlerResult.ok info →
      '\n' ∉ info.description.data)
    ∧ (∀ ev info, get_pokemon_info ev = BuildResult.ok info →
      '\n' ∉ info.description.data) := by
  have hfetch : ∀ ev info, get_pokemon_info ev = BuildResult.ok info →
      '\n' ∉ info.description.data := by
    intro ev info h
    obtain ⟨j, _, hbuild⟩ := get_pokemon_info_ok_inv ev info h
    obtain ⟨entries, entry, d, _, _, _, hdesc⟩ :=
      build_pokemon_info_ok_inv j info hbuild
    rw [hdesc]
    exact foldNewlines_no_newline d
  refine ⟨?_, hfetch⟩
  intro ev info h
  unfold getInfo at h
  split at h
  · rename_i info' hok
    cases h
    exact hfetch ev _ hok
  · cases h
  · cases h

/-- Claim C4 witness for the amended statement: the concrete mewtwo
payload, whose flavor text holds a newline, yields a folded
description. -/
theorem C4_no_newline_in_fetched_description_witness :
    '\n' ∉ sampleInfo.description.data :=
  C4_no_newline_in_fetched_description.1 sampleSpeciesEvent sampleInfo rfl

/-- Claim C5: the translated handler sequences the two upstream calls
with no fallback.  If the species fetch fails, the outcome is the mapped
species error, independent of anything the translation upstream would
answer — the translation client is not consulted.  If the species fetch
succeeds and the translation call fails, the outcome is the mapped
translation error, never a success with an untranslated description. -/
theorem C5_sequencing_no_fallback :
    (∀ ev e o, get_pokemon_info ev = BuildResult.error e →
      get_pokemon_info_translated ev o
        = HandlerResult.error (PokeError.fromPokeApiClientError e))
    ∧ (∀ ev e o₁ o₂, get_pokemon_info ev = BuildResult.error e →
      get_pokemon_info_translated ev o₁ = get_pokemon_info_translated ev o₂)
    ∧ (∀ ev info o e, get_pokemon_info ev = BuildResult.ok info →
      FunTranslationsApiClient.translate
        (o (selectDialect info) info.description) = Except.error e →
      get_pokemon_info_translated ev o
        = HandlerResult.error (PokeError.fromFunTranslationsApiClientError e)) := by
  have herr : ∀ ev e o, get_pokemon_info ev = BuildResult.error e →
      get_pokemon_info_translated ev o
        = HandlerResult.error (PokeError.fromPokeApiClientError e) := by
    intro ev e o h
    unfold get_pokemon_info_translated
    rw [h]
  refine ⟨herr, ?_, ?_⟩
  · intro ev e o₁ o₂ h
    rw [herr ev e o₁ h, herr ev e o₂ h]
  · intro ev info o e hf ht
    unfold get_pokemon_info_translated
    rw [hf]
    dsimp only
    rw [ht]

/-- Claim C5 witness: a 404 species exchange propagates as the mapped
pokemon-not-found error whatever the translation upstream is, and a
successful fetch followed by a 500 translation exchange fails with the
mapped internal error. -/
theorem C5_sequencing_no_fallback_witness :
    get_pokemon_info_translated notFoundSpeciesEvent sampleTranslationUpstream
      = HandlerResult.error
        (PokeError.fromPokeApiClientError PokeApiClientError.NotFound)
    ∧ get_pokemon_info_translated sampleSpeciesEvent failingTranslationUpstream
      = HandlerResult.error (PokeError.fromFunTranslationsApiClientError
        FunTranslationsApiClientError.InternalError) :=
  ⟨C5_sequencing_no_fallback.1 notFoundSpeciesEvent PokeApiClientError.NotFound
      sampleTranslationUpstream rfl,
    C5_sequencing_no_fallback.2.2 sampleSpeciesEvent sampleInfo
      failingTranslationUpstream FunTranslationsApiClientError.InternalError rfl rfl⟩

/-- Claim C6: on a successful translated request only the description is
replaced — name, habitat and is_legendary equal those of the fetched
record, and the description is the `translated` text of the translation
obtained at the selected dialect. -/
theorem C6_only_description_replaced (ev : UpstreamEvent)
    (o : String → String → UpstreamEvent) (info result : PokemonInfo)
    (hf : get_pokemon_info ev = BuildResult.ok info)
    (ht : get_pokemon_info_translated ev o = HandlerResult.ok result) :
    result.name = info.name ∧ result.habitat = info.habitat
    ∧ result.is_legendary = info.is_legendary
    ∧ ∃ t, FunTranslationsApiClient.translate
        (o (selectDialect info) info.description) = Except.ok t
      ∧ result.description = t.translated := by
  unfold get_pokemon_info_translated at ht
  rw [hf] at ht
  dsimp only at ht
  split at ht
  · cases ht
  · rename_i t heq
    cases ht
    exact ⟨rfl, rfl, rfl, t, heq, rfl⟩

/-- Claim C6 witness: instantiated at the concrete mewtwo payload and
the concrete yoda translation upstream. -/
theorem C6_only_description_replaced_witness :
    sampleTranslatedInfo.name = sampleInfo.name
    ∧ sampleTranslatedInfo.habitat = sampleInfo.habitat
    ∧ sampleTranslatedInfo.is_legendary = sampleInfo.is_legendary
    ∧ ∃ t, FunTranslationsApiClient.translate
        (sampleTranslationUpstream (selectDialect sampleInfo)
          sampleInfo.description) = Except.ok t
      ∧ sampleTranslatedInfo.description = t.translated :=
  C6_only_description_replaced sampleSpeciesEvent sampleTranslationUpstream
    sampleInfo sampleTranslatedInfo rfl rfl

/-- Claim C7: the boundary error translation is total, deterministic and
follows the table — for each client, NotFound maps to 404 / PE_NOT_FOUND,
InternalError to 500 / PE_INTERNAL / "internal error", and BadRequest
carries its message to 400 / PE_BAD_REQUEST; the 404 message is
"pokemon not found" for the species client and "not found" for the
translation client.  The six cases exhaust both error enumerations. -/
theorem C7_boundary_error_table :
    PokeError.fromPokeApiClientError PokeApiClientError.NotFound
      = PokeError.mk 404 "PE_NOT_FOUND" "pokemon not found"
    ∧ PokeError.fromPokeApiClientError PokeApiClientError.InternalError
      = PokeError.mk 500 "PE_INTERNAL" "internal error"
    ∧ (∀ m, PokeError.fromPokeApiClientError (PokeApiClientError.BadRequest m)
      = PokeError.mk 400 "PE_BAD_REQUEST" m)
    ∧ PokeError.fromFunTranslationsApiClientError FunTranslationsApiClientError.NotFound
      = PokeError.mk 404 "PE_NOT_FOUND" "not found"
    ∧ PokeError.fromFunTranslationsApiClientError FunTranslationsApiClientError.InternalError
      = PokeError.mk 500 "PE_INTERNAL" "internal error"
    ∧ (∀ m, PokeError.fromFunTranslationsApiClientError
        (FunTranslationsApiClientError.BadRequest m)
      = PokeError.mk 400 "PE_BAD_REQUEST" m) :=
  ⟨rfl, rfl, fun _ => rfl, rfl, rfl, fun _ => rfl⟩

/-- Claim C8: a 200 translation response whose body lacks a usable
`success.total` (absent, mistyped, or zero) or any of the three string
fields of `contents` fails with InternalError — a 200 status alone never
yields a success. -/
theorem C8_translation_200_bad_body (j : Json)
    (h : ((j.index "success").index "total").as_u64 = none
      ∨ ((j.index "success").index "total").as_u64 = some 0
      ∨ ((j.index "contents").index "translated").as_str = none
      ∨ ((j.index "contents").index "text").as_str = none
      ∨ ((j.index "contents").index "translation").as_str = none) :
    FunTranslationsApiClient.translate (UpstreamEvent.httpResponse 200 (some j))
      = Except.error FunTranslationsApiClientError.InternalError := by
  show build_translation j = Except.error FunTranslationsApiClientError.InternalError
  unfold build_translation
  cases htot : ((j.index "success").index "total").as_u64 with
  | none => rfl
  | some total =>
    dsimp only
    rw [htot] at h
    by_cases hpos : total > 0
    · rw [if_pos hpos]
      have hzero : ¬ (some total = some (0 : Nat)) := by
        intro hc
        cases hc
        exact absurd hpos (by decide)
      rcases h with h | h | h | h | h
      · cases h
      · exact absurd h hzero
      · rw [h]
      · rw [h]
        cases ((j.index "contents").index "translated").as_str <;>
          cases ((j.index "contents").index "translation").as_str <;> rfl
      · rw [h]
        cases ((j.index "contents").index "translated").as_str <;>
          cases ((j.index "contents").index "text").as_str <;> rfl
    · rw [if_neg hpos]

/-- Claim C8 witness: the empty-object body, whose `success.total` is
absent, fails the 200 translation call with InternalError. -/
theorem C8_translation_200_bad_body_witness :
    FunTranslationsApiClient.translate
      (UpstreamEvent.httpResponse 200 (some (Json.obj [])))
      = Except.error FunTranslationsApiClientError.InternalError :=
  C8_translation_200_bad_body (Json.obj []) (Or.inl rfl)

/-- Claim C9 (code evidence): the species-metadata client is built by
PokeApiClient::new with reqwest Client::new(), which configures no
timeout, while the translation client is built with the configured
timeout (10 seconds in the reference configuration); a transport-level
failure, timeout included, maps to InternalError in both clients. -/
theorem C9_species_client_has_no_timeout :
    pokeApiClientHttp.timeout = none
    ∧ (funTranslationsApiClientHttp 10).timeout = some 10
    ∧ get_pokemon_info (UpstreamEvent.transportError none)
      = BuildResult.error PokeApiClientError.InternalError
    ∧ FunTranslationsApiClient.translate (UpstreamEvent.transportError none)
      = Except.error FunTranslationsApiClientError.InternalError :=
  ⟨rfl, rfl, rfl, rfl⟩

/-- Claim C10: the two clients convert reqwest transport errors
asymmetrically — the species client maps every transport error to
InternalError, while the translation client maps a transport error
carrying HTTP status 404 to NotFound and every other one to
InternalError; each client's fetch surfaces exactly that conversion on a
transport failure. -/
theorem C10_transport_error_asymmetry :
    (∀ st, PokeApiClientError.fromReqwestError st
      = PokeApiClientError.InternalError)
    ∧ FunTranslationsApiClientError.fromReqwestError (some 404)
      = FunTranslationsApiClientError.NotFound
    ∧ (∀ st, st ≠ some 404 →
      FunTranslationsApiClientError.fromReqwestError st
        = FunTranslationsApiClientError.InternalError)
    ∧ (∀ st, get_pokemon_info (UpstreamEvent.transportError st)
      = BuildResult.error (PokeApiClientError.fromReqwestError st))
    ∧ (∀ st, FunTranslationsApiClient.translate (UpstreamEvent.transportError st)
      = Except.error (FunTranslationsApiClientError.fromReqwestError st)) := by
  refine ⟨fun st => rfl, rfl, ?_, fun st => rfl, fun st => rfl⟩
  intro st hne
  unfold FunTranslationsApiClientError.fromReqwestError
  rw [if_neg hne]

/-- Claim C10 witness: a transport error carrying status 404 still maps
to InternalError for the species client, while a status-500 transport
error maps to InternalError for the translation client. -/
theorem C10_transport_error_asymmetry_witness :
    PokeApiClientError.fromReqwestError (some 404)
      = PokeApiClientError.InternalError
    ∧ FunTranslationsApiClientError.fromReqwestError (some 500)
      = FunTranslationsApiClientError.InternalError :=
  ⟨C10_transport_error_asymmetry.1 (some 404),
    C10_transport_error_asymmetry.2.2.1 (some 500) (by decide)⟩
